import Mathlib

/-!
Verification of the body-temperature model in `src/bodytemp.cpp`.

The C++ code is embedded shallowly: the per-part record
`BodyPartTemperatures` becomes a Lean structure, the `bodyparts` array of
`class BodyTemperature` becomes a total map from body parts to records,
and every member function becomes a state-passing Lean function.  C++
`int` is modelled as unbounded `Int`, the `float` constant
`equalization_factor = 0.0001` as the exact rational `1 / 10000`, and the
C++ float-to-int conversion `int(...)` as truncation toward zero.
-/

/-- The body parts referenced by `bodytemp.cpp` (declared in the external
header `bodypart.h`). -/
inductive body_part where
  | bp_torso
  | bp_head
  | bp_mouth
  | bp_arm_l
  | bp_arm_r
  | bp_hand_l
  | bp_hand_r
  | bp_leg_l
  | bp_leg_r
  | bp_foot_l
  | bp_foot_r
deriving DecidableEq, Fintype

open body_part

/-- Temperature state of a single body part (`struct BodyPartTemperatures`).
The implementation writes the `bonus` field under the name `bonus_warmth`;
the struct declares it as `bonus`. -/
structure BodyPartTemperatures where
  current : Int
  converging : Int
  bonus : Int
  frostbite_counter : Int
deriving DecidableEq

/-- The state of `class BodyTemperature`: its `bodyparts` array, modelled
as a total map from body parts to their temperature records. -/
abbrev BodyTemperature := body_part → BodyPartTemperatures

/-- Mutation of one entry of the `bodyparts` array. -/
def updateAt (s : BodyTemperature) (p : body_part)
    (f : BodyPartTemperatures → BodyPartTemperatures) : BodyTemperature :=
  fun q => if q = p then f (s q) else s q

/-- Source operation `bodyparts[p].bonus_warmth += b`. -/
def addBonus (b : Int) (t : BodyPartTemperatures) : BodyPartTemperatures :=
  { t with bonus := t.bonus + b }

/-- Function `BodyTemperature::add_bonus_fire_warmth` (bodytemp.cpp lines 110-134).
Note that line 131 computes `foot_bonus` but lines 132-133 then add
`hand_bonus` to both feet; the embedding reproduces this faithfully,
keeping the unused `foot_bonus` binding. -/
def add_bonus_fire_warmth (s : BodyTemperature) (fire_intensity : Int)
    (is_sitting : Bool) : BodyTemperature :=
  let core_bonus := fire_intensity * fire_intensity * 150
  let arm_bonus := fire_intensity * 600
  let hand_bonus := fire_intensity * 1500
  let _foot_bonus := fire_intensity * (if is_sitting then 1000 else 300)
  let s := updateAt s bp_head (addBonus core_bonus)
  let s := updateAt s bp_torso (addBonus core_bonus)
  let s := updateAt s bp_mouth (addBonus core_bonus)
  let s := updateAt s bp_leg_l (addBonus core_bonus)
  let s := updateAt s bp_leg_r (addBonus core_bonus)
  let s := updateAt s bp_arm_l (addBonus arm_bonus)
  let s := updateAt s bp_arm_r (addBonus arm_bonus)
  let s := updateAt s bp_hand_l (addBonus hand_bonus)
  let s := updateAt s bp_hand_r (addBonus hand_bonus)
  let s := updateAt s bp_foot_l (addBonus hand_bonus)
  let s := updateAt s bp_foot_r (addBonus hand_bonus)
  s

/-- A state in which every part has all four fields zero, used as the
concrete starting state of the spec scenarios. -/
def zeroState : BodyTemperature := fun _ => ⟨0, 0, 0, 0⟩

/-- C1: the claim says each foot's bonus becomes `fire_intensity * 1000`
when sitting (2000 for intensity 2); the code instead adds `hand_bonus =
fire_intensity * 1500` to both feet (lines 132-133), leaving the computed
`foot_bonus` unused, so each foot ends at 3000. -/
theorem add_bonus_fire_warmth_foot_uses_hand_bonus :
    ((add_bonus_fire_warmth zeroState 2 true) bp_foot_l).bonus = 3000 ∧
    ((add_bonus_fire_warmth zeroState 2 true) bp_foot_r).bonus = 3000 ∧
    ((add_bonus_fire_warmth zeroState 2 true) bp_foot_l).bonus ≠ 2 * 1000 := by
  decide

/-- C3: `add_bonus_fire_warmth` adds `fire_intensity^2 * 150` to the bonus
of head, torso, mouth and both legs, `fire_intensity * 600` to each arm's
bonus, and `fire_intensity * 1500` to each hand's bonus, additively. -/
theorem add_bonus_fire_warmth_core_arm_hand (s : BodyTemperature)
    (fire_intensity : Int) (is_sitting : Bool) :
    ((add_bonus_fire_warmth s fire_intensity is_sitting) bp_head).bonus
      = (s bp_head).bonus + fire_intensity * fire_intensity * 150 ∧
    ((add_bonus_fire_warmth s fire_intensity is_sitting) bp_torso).bonus
      = (s bp_torso).bonus + fire_intensity * fire_intensity * 150 ∧
    ((add_bonus_fire_warmth s fire_intensity is_sitting) bp_mouth).bonus
      = (s bp_mouth).bonus + fire_intensity * fire_intensity * 150 ∧
    ((add_bonus_fire_warmth s fire_intensity is_sitting) bp_leg_l).bonus
      = (s bp_leg_l).bonus + fire_intensity * fire_intensity * 150 ∧
    ((add_bonus_fire_warmth s fire_intensity is_sitting) bp_leg_r).bonus
      = (s bp_leg_r).bonus + fire_intensity * fire_intensity * 150 ∧
    ((add_bonus_fire_warmth s fire_intensity is_sitting) bp_arm_l).bonus
      = (s bp_arm_l).bonus + fire_intensity * 600 ∧
    ((add_bonus_fire_warmth s fire_intensity is_sitting) bp_arm_r).bonus
      = (s bp_arm_r).bonus + fire_intensity * 600 ∧
    ((add_bonus_fire_warmth s fire_intensity is_sitting) bp_hand_l).bonus
      = (s bp_hand_l).bonus + fire_intensity * 1500 ∧
    ((add_bonus_fire_warmth s fire_intensity is_sitting) bp_hand_r).bonus
      = (s bp_hand_r).bonus + fire_intensity * 1500 := by
  exact ⟨rfl, rfl, rfl, rfl, rfl, rfl, rfl, rfl, rfl⟩

/-- C10: `add_bonus_fire_warmth` only touches the `bonus` field: for every
part, `current`, `converging` and `frostbite_counter` are unchanged. -/
theorem add_bonus_fire_warmth_frame (s : BodyTemperature)
    (fire_intensity : Int) (is_sitting : Bool) (p : body_part) :
    ((add_bonus_fire_warmth s fire_intensity is_sitting) p).current
      = (s p).current ∧
    ((add_bonus_fire_warmth s fire_intensity is_sitting) p).converging
      = (s p).converging ∧
    ((add_bonus_fire_warmth s fire_intensity is_sitting) p).frostbite_counter
      = (s p).frostbite_counter := by
  cases p <;> exact ⟨rfl, rfl, rfl⟩

/-- Constant `float BodyTemperature::equalization_factor = 0.0001` (line 103),
modelled as the exact rational value of the literal. -/
def equalization_factor : ℚ := 1 / 10000

/-- C++ conversion of a floating-point value to `int` (`int( ... )`):
truncation toward zero. -/
def truncToInt (q : ℚ) : Int := if q < 0 then -⌊-q⌋ else ⌊q⌋

/-- Function `BodyTemperature::equalize_single_part` (lines 154-159):
`diff = source.current - sink.current; flow = int(diff *
equalization_factor); sink.current += flow`. -/
def equalize_single_part (s : BodyTemperature) (sink source : body_part) :
    BodyTemperature :=
  let diff := (s source).current - (s sink).current
  let flow := truncToInt ((diff : ℚ) * equalization_factor)
  updateAt s sink (fun t => { t with current := t.current + flow })

/-- Truncation toward zero of `d / 10000` is the T-division `d.tdiv 10000`,
which is what the C++ `int()` conversion computes on `diff * 0.0001`. -/
theorem truncToInt_mul_factor (d : Int) :
    truncToInt ((d : ℚ) * equalization_factor) = Int.tdiv d 10000 := by
  have hq : ((d : ℚ) * equalization_factor) = (d : ℚ) / ((10000 : ℕ) : ℚ) := by
    rw [equalization_factor]; push_cast; ring
  rw [truncToInt, hq]
  rcases le_or_lt 0 d with hd | hd
  · have hnn : ¬ ((d : ℚ) / ((10000 : ℕ) : ℚ) < 0) := by
      rw [not_lt]; positivity
    rw [if_neg hnn, Rat.floor_intCast_div_natCast,
      Int.tdiv_eq_ediv hd (by omega)]
    norm_num
  · have hneg : ((d : ℚ) / ((10000 : ℕ) : ℚ)) < 0 := by
      apply div_neg_of_neg_of_pos
      · exact_mod_cast hd
      · norm_num
    have hflip : -((d : ℚ) / ((10000 : ℕ) : ℚ)) = ((-d : ℤ) : ℚ) / ((10000 : ℕ) : ℚ) := by
      push_cast; ring
    rw [if_pos hneg, hflip, Rat.floor_intCast_div_natCast,
      ← Int.tdiv_eq_ediv (by omega : (0 : ℤ) ≤ -d) (by omega), Int.neg_tdiv,
      neg_neg]
    norm_num

/-- The new `current` of the sink after `equalize_single_part`: the flow is
the truncated-toward-zero product `diff * 0.0001`, i.e. `diff.tdiv 10000`. -/
theorem equalize_sink_current_eq (s : BodyTemperature)
    (sink source : body_part) :
    ((equalize_single_part s sink source) sink).current
      = (s sink).current
        + Int.tdiv ((s source).current - (s sink).current) 10000 := by
  simp only [equalize_single_part, updateAt, truncToInt_mul_factor,
    eq_self_iff_true, if_true]

/-- A concrete state for the C2 counterexample: the torso at 15000, every
other part (in particular the head) at 0. -/
def cexState : BodyTemperature :=
  fun p => if p = bp_torso then ⟨15000, 0, 0, 0⟩ else ⟨0, 0, 0, 0⟩

/-- C2 counterexample: with sink = torso at 15000 and source = head at 0,
the difference is -15000 and `diff * equalization_factor = -1.5`.  The
claim's floor would give flow -2 and a result of 14998; the code's
truncation toward zero gives flow -1 and a result of 14999. -/
theorem equalize_single_part_not_floor :
    ((equalize_single_part cexState bp_torso bp_head) bp_torso).current
      = 14999 ∧
    (cexState bp_torso).current
      + ⌊(((cexState bp_head).current - (cexState bp_torso).current : Int) : ℚ)
          * equalization_factor⌋ = 14998 ∧
    ((equalize_single_part cexState bp_torso bp_head) bp_torso).current
      ≠ (cexState bp_torso).current
        + ⌊(((cexState bp_head).current - (cexState bp_torso).current : Int) : ℚ)
            * equalization_factor⌋ := by
  have h1 : ((equalize_single_part cexState bp_torso bp_head) bp_torso).current
      = 14999 := by
    rw [equalize_sink_current_eq]
    decide
  have h2 : (cexState bp_torso).current
      + ⌊(((cexState bp_head).current - (cexState bp_torso).current : Int) : ℚ)
          * equalization_factor⌋ = 14998 := by
    have hc : ((cexState bp_head).current - (cexState bp_torso).current : Int)
        = -15000 := by decide
    rw [hc]
    have hv : (((-15000 : Int) : ℚ) * equalization_factor) = -(3 / 2) := by
      rw [equalization_factor]; norm_num
    rw [hv]
    have hf : ⌊(-(3 / 2) : ℚ)⌋ = -2 := by
      rw [Int.floor_eq_iff]
      norm_num
    rw [hf]
    decide
  exact ⟨h1, h2, by rw [h1, h2]; decide⟩

/-- C2 (amended): for distinct sink and source, `equalize_single_part`
sets the sink's current to `sink.current + flow` where the flow is
`(source.current - sink.current) * equalization_factor` truncated toward
zero (C++ `int()` conversion), i.e. the T-division of the difference by
10000 — which agrees with floor only when the difference is nonnegative. -/
theorem equalize_single_part_trunc_flow (s : BodyTemperature)
    (sink source : body_part) (_hne : sink ≠ source) :
    ((equalize_single_part s sink source) sink).current
      = (s sink).current
        + Int.tdiv ((s source).current - (s sink).current) 10000 :=
  equalize_sink_current_eq s sink source

/-- Witness for the amended C2 at a concrete input. -/
theorem equalize_single_part_trunc_flow_witness :
    bp_torso ≠ bp_head ∧
    ((equalize_single_part cexState bp_torso bp_head) bp_torso).current
      = (cexState bp_torso).current
        + Int.tdiv ((cexState bp_head).current - (cexState bp_torso).current)
            10000 :=
  ⟨by decide, equalize_single_part_trunc_flow cexState bp_torso bp_head
    (by decide)⟩

/-- C4: `equalize_single_part` never changes the source's current
temperature; only the sink's current may change: the sink's own
`converging`, `bonus` and `frostbite_counter` are unchanged, and every
part other than the sink is entirely unchanged. -/
theorem equalize_single_part_frame (s : BodyTemperature)
    (sink source : body_part) :
    ((equalize_single_part s sink source) source).current
      = (s source).current ∧
    ((equalize_single_part s sink source) sink).converging
      = (s sink).converging ∧
    ((equalize_single_part s sink source) sink).bonus
      = (s sink).bonus ∧
    ((equalize_single_part s sink source) sink).frostbite_counter
      = (s sink).frostbite_counter ∧
    ∀ p : body_part, p ≠ sink → (equalize_single_part s sink source) p = s p := by
  refine ⟨?_, ?_, ?_, ?_, ?_⟩
  · by_cases h : source = sink
    · subst h
      rw [equalize_sink_current_eq]
      simp
    · simp [equalize_single_part, updateAt, h]
  · simp [equalize_single_part, updateAt]
  · simp [equalize_single_part, updateAt]
  · simp [equalize_single_part, updateAt]
  · intro p hp
    simp [equalize_single_part, updateAt, hp]

/-- Witness for C4 at a concrete input. -/
theorem equalize_single_part_frame_witness :
    ((equalize_single_part cexState bp_torso bp_head) bp_head).current
      = (cexState bp_head).current ∧
    ((equalize_single_part cexState bp_torso bp_head) bp_torso).converging
      = (cexState bp_torso).converging ∧
    ((equalize_single_part cexState bp_torso bp_head) bp_torso).bonus
      = (cexState bp_torso).bonus ∧
    ((equalize_single_part cexState bp_torso bp_head)
        bp_torso).frostbite_counter
      = (cexState bp_torso).frostbite_counter ∧
    bp_head ≠ bp_torso ∧
    (equalize_single_part cexState bp_torso bp_head) bp_head
      = cexState bp_head :=
  ⟨(equalize_single_part_frame cexState bp_torso bp_head).1,
    (equalize_single_part_frame cexState bp_torso bp_head).2.1,
    (equalize_single_part_frame cexState bp_torso bp_head).2.2.1,
    (equalize_single_part_frame cexState bp_torso bp_head).2.2.2.1,
    by decide,
    (equalize_single_part_frame cexState bp_torso bp_head).2.2.2.2 bp_head
      (by decide)⟩

/-- The ordered `(sink, source)` arguments of the twenty
`equalize_single_part` calls made by `BodyTemperature::equalize_all_parts`
(lines 161-190), in source order. -/
def equalize_calls : List (body_part × body_part) :=
  [(bp_torso, bp_arm_l), (bp_torso, bp_arm_r), (bp_torso, bp_leg_l),
   (bp_torso, bp_leg_r), (bp_torso, bp_head),
   (bp_head, bp_torso), (bp_arm_l, bp_torso), (bp_arm_r, bp_torso),
   (bp_leg_l, bp_torso), (bp_leg_r, bp_torso),
   (bp_arm_l, bp_hand_l), (bp_arm_r, bp_hand_r), (bp_leg_l, bp_foot_l),
   (bp_leg_r, bp_foot_r),
   (bp_hand_l, bp_arm_l), (bp_hand_r, bp_arm_r), (bp_foot_l, bp_leg_l),
   (bp_foot_r, bp_leg_r),
   (bp_mouth, bp_head), (bp_head, bp_mouth)]

/-- Function `BodyTemperature::equalize_all_parts`: the twenty sequential
one-directional transfers of `equalize_calls`. -/
def equalize_all_parts (s : BodyTemperature) : BodyTemperature :=
  equalize_calls.foldl (fun s c => equalize_single_part s c.1 c.2) s

/-- The undirected adjacency graph over body parts along which heat flows,
each edge listed once. -/
def adjacency : List (body_part × body_part) :=
  [(bp_torso, bp_arm_l), (bp_torso, bp_arm_r), (bp_torso, bp_leg_l),
   (bp_torso, bp_leg_r), (bp_torso, bp_head), (bp_head, bp_mouth),
   (bp_arm_l, bp_hand_l), (bp_arm_r, bp_hand_r), (bp_leg_l, bp_foot_l),
   (bp_leg_r, bp_foot_r)]

/-- C9: `equalize_all_parts` performs exactly 20 one-directional transfers
via `equalize_single_part`, and an ordered pair `(sink, source)` occurs
among them exactly once when the unordered pair is an edge of the
adjacency graph, and never otherwise. -/
theorem equalize_all_parts_covers_adjacency :
    (∀ s : BodyTemperature, equalize_all_parts s
      = equalize_calls.foldl (fun s c => equalize_single_part s c.1 c.2) s) ∧
    equalize_calls.length = 20 ∧
    ∀ a b : body_part,
      equalize_calls.count (a, b)
        = (if (a, b) ∈ adjacency ∨ (b, a) ∈ adjacency then 1 else 0) :=
  ⟨fun _ => rfl, by decide, by decide⟩

/-- Modelled from the spec: the body of `BodyTemperature::set_to_normal`
is an unfinished stub in the source (lines 105-108 contain a `for` loop
with no body and the function does not parse).  Spec section 4.4: for
every body part, set `current` and `converging` to the defined neutral
baseline temperature, `bonus` to zero and `frostbite_counter` to zero.
The spec does not fix the numeric baseline; it is given here as a named
constant. -/
def NORMAL_BODY_TEMPERATURE : Int := 5000

/-- Modelled from the spec: `BodyTemperature::set_to_normal`, see
`NORMAL_BODY_TEMPERATURE`. -/
def set_to_normal (_s : BodyTemperature) : BodyTemperature :=
  fun _ =>
    { current := NORMAL_BODY_TEMPERATURE
      converging := NORMAL_BODY_TEMPERATURE
      bonus := 0
      frostbite_counter := 0 }

/-- C7: after `set_to_normal`, every part has `current = converging`,
zero bonus and zero frostbite counter, and a second call changes
nothing. -/
theorem set_to_normal_normalizes (s : BodyTemperature) (p : body_part) :
    ((set_to_normal s) p).current = ((set_to_normal s) p).converging ∧
    ((set_to_normal s) p).bonus = 0 ∧
    ((set_to_normal s) p).frostbite_counter = 0 ∧
    set_to_normal (set_to_normal s) = set_to_normal s :=
  ⟨rfl, rfl, rfl, rfl⟩

/-- Modelled from the spec: the convergence step of
`BodyTemperature::update_temperatures` is unfinished in the source (line
150 reads `bodyparts[i].current = int( diff *  + bodyparts[i]`, which
references an undefined `diff` and does not parse; only the skip-if-equal
guard of lines 146-148 is complete).  Spec section 4.3: move `current`
one step closer to `converging` by the proportional step
`floor((converging - current) * rate)`, bounded so the part never
overshoots past `converging`, and do nothing when already equal. -/
def step_current (rate : ℚ) (t : BodyPartTemperatures) :
    BodyPartTemperatures :=
  if t.current = t.converging then t
  else
    let diff := t.converging - t.current
    let raw := ⌊(diff : ℚ) * rate⌋
    let step :=
      if 0 < diff then min (max raw 1) diff else max (min raw (-1)) diff
    { t with current := t.current + step }

/-- Modelled from the spec: `BodyTemperature::update_temperatures`
iterates the convergence step over every body part (the loop of lines
144-151); the convergence rate is injected configuration. -/
def update_temperatures (rate : ℚ) (s : BodyTemperature) : BodyTemperature :=
  fun p => step_current rate (s p)

/-- C5: one call to `update_temperatures` leaves `current` unchanged when
it already equals `converging`, and otherwise strictly decreases the
distance `|current - converging|` while keeping `current` between its old
value and `converging` (no overshoot). -/
theorem update_temperatures_step_toward_target (rate : ℚ)
    (s : BodyTemperature) (p : body_part) :
    ((s p).current = (s p).converging →
      ((update_temperatures rate s) p).current = (s p).current) ∧
    ((s p).current ≠ (s p).converging →
      (((update_temperatures rate s) p).current - (s p).converging).natAbs
        < ((s p).current - (s p).converging).natAbs ∧
      min (s p).current (s p).converging
        ≤ ((update_temperatures rate s) p).current ∧
      ((update_temperatures rate s) p).current
        ≤ max (s p).current (s p).converging) := by
  constructor
  · intro h
    simp only [update_temperatures, step_current, if_pos h]
  · intro h
    simp only [update_temperatures, step_current, if_neg h]
    generalize ⌊(((s p).converging - (s p).current : Int) : ℚ) * rate⌋ = r
    by_cases hd : 0 < (s p).converging - (s p).current
    · rw [if_pos hd]
      omega
    · rw [if_neg hd]
      omega

/-- A concrete state for the convergence scenarios: every part at
`current = 0` converging toward `1000`. -/
def exState : BodyTemperature := fun _ => ⟨0, 1000, 0, 0⟩

/-- Witness for C5 at a concrete input. -/
theorem update_temperatures_step_toward_target_witness :
    (exState bp_head).current ≠ (exState bp_head).converging ∧
    ((((update_temperatures (1 / 100) exState) bp_head).current
        - (exState bp_head).converging).natAbs
      < ((exState bp_head).current - (exState bp_head).converging).natAbs ∧
    min (exState bp_head).current (exState bp_head).converging
      ≤ ((update_temperatures (1 / 100) exState) bp_head).current ∧
    ((update_temperatures (1 / 100) exState) bp_head).current
      ≤ max (exState bp_head).current (exState bp_head).converging) :=
  ⟨by decide,
    (update_temperatures_step_toward_target (1 / 100) exState bp_head).2
      (by decide)⟩

/-- Applying `step_current` never changes the convergence target. -/
theorem step_current_converging (rate : ℚ) (t : BodyPartTemperatures) :
    (step_current rate t).converging = t.converging := by
  rw [step_current]
  split <;> rfl

/-- Applying `step_current` to an already-converged part is a no-op. -/
theorem step_current_eq_self (rate : ℚ) (t : BodyPartTemperatures)
    (h : t.current = t.converging) : step_current rate t = t := by
  rw [step_current, if_pos h]

/-- On a part that has not converged, `step_current` strictly decreases
the distance to the target. -/
theorem step_current_dist_lt (rate : ℚ) (t : BodyPartTemperatures)
    (h : t.current ≠ t.converging) :
    ((step_current rate t).converging - (step_current rate t).current).natAbs
      < (t.converging - t.current).natAbs := by
  simp only [step_current, if_neg h]
  generalize ⌊((t.converging - t.current : Int) : ℚ) * rate⌋ = r
  by_cases hd : 0 < t.converging - t.current
  · rw [if_pos hd]
    omega
  · rw [if_neg hd]
    omega

/-- Applying `update_temperatures` `m` times acts on each part as `m`
applications of `step_current`. -/
theorem update_temperatures_iterate_apply (rate : ℚ) (m : ℕ)
    (s : BodyTemperature) (p : body_part) :
    (((update_temperatures rate)^[m]) s) p = ((step_current rate)^[m]) (s p) := by
  induction m with
  | zero => rfl
  | succ k ih =>
    rw [Function.iterate_succ_apply', Function.iterate_succ_apply', ← ih]
    rfl

/-- After at least `(t.converging - t.current).natAbs` steps, a part's
current temperature has reached its target and stays there. -/
theorem step_current_iterate_reaches (rate : ℚ) :
    ∀ d : ℕ, ∀ t : BodyPartTemperatures,
      (t.converging - t.current).natAbs ≤ d →
      ∀ m : ℕ, d ≤ m → (((step_current rate)^[m]) t).current = t.converging := by
  intro d
  induction d with
  | zero =>
    intro t ht m _
    have heq : t.current = t.converging := by omega
    rw [Function.iterate_fixed (step_current_eq_self rate t heq), heq]
  | succ k ih =>
    intro t ht m hm
    by_cases heq : t.current = t.converging
    · rw [Function.iterate_fixed (step_current_eq_self rate t heq), heq]
    · obtain ⟨m', rfl⟩ : ∃ m', m = m' + 1 := ⟨m - 1, by omega⟩
      rw [Function.iterate_succ_apply]
      have hlt := step_current_dist_lt rate t heq
      have hconv := step_current_converging rate t
      have := ih (step_current rate t) (by omega) m' (by omega)
      rw [this, hconv]

/-- C6: for every part, iterating `update_temperatures` with a fixed
target reaches `current = converging` after finitely many calls, and from
that point on every further call leaves `current` at the target. -/
theorem update_temperatures_converges (rate : ℚ) (s : BodyTemperature)
    (p : body_part) :
    ∃ n : ℕ, ∀ m : ℕ, n ≤ m →
      ((((update_temperatures rate)^[m]) s) p).current = (s p).converging := by
  refine ⟨((s p).converging - (s p).current).natAbs, fun m hm => ?_⟩
  rw [update_temperatures_iterate_apply]
  exact step_current_iterate_reaches rate
    ((s p).converging - (s p).current).natAbs (s p) le_rfl m hm

/-- Witness for C6 at a concrete input. -/
theorem update_temperatures_converges_witness :
    ∃ n : ℕ, ∀ m : ℕ, n ≤ m →
      ((((update_temperatures (1 / 100))^[m]) exState) bp_torso).current
        = (exState bp_torso).converging :=
  update_temperatures_converges (1 / 100) exState bp_torso

/-- C8 counterexample: at `fire_intensity = 5` the bonus added to an arm
(5 * 600 = 3000) is smaller than the bonus added to a core part
(5 * 5 * 150 = 3750), so "arm bonus ≥ core bonus" fails without an upper
bound on the intensity. -/
theorem fire_warmth_arm_below_core_at_five :
    ((add_bonus_fire_warmth zeroState 5 true) bp_arm_l).bonus = 3000 ∧
    ((add_bonus_fire_warmth zeroState 5 true) bp_head).bonus = 3750 ∧
    ¬ (((add_bonus_fire_warmth zeroState 5 true) bp_arm_l).bonus
        ≥ ((add_bonus_fire_warmth zeroState 5 true) bp_head).bonus) := by
  decide

/-- C8 (amended): for `0 ≤ fire_intensity ≤ 4`, the bonus added by
`add_bonus_fire_warmth` to a hand is at least that added to an arm, which
is at least that added to each core part (head, torso, mouth, legs); and
for every such intensity the bonus added to a foot while sitting is at
least the bonus added while standing. -/
theorem fire_warmth_monotone_scaling (s : BodyTemperature)
    (fire_intensity : Int) (is_sitting : Bool)
    (h0 : 0 ≤ fire_intensity) (h4 : fire_intensity ≤ 4) :
    (((add_bonus_fire_warmth s fire_intensity is_sitting) bp_hand_l).bonus
        - (s bp_hand_l).bonus
      ≥ ((add_bonus_fire_warmth s fire_intensity is_sitting) bp_arm_l).bonus
        - (s bp_arm_l).bonus) ∧
    (((add_bonus_fire_warmth s fire_intensity is_sitting) bp_hand_r).bonus
        - (s bp_hand_r).bonus
      ≥ ((add_bonus_fire_warmth s fire_intensity is_sitting) bp_arm_r).bonus
        - (s bp_arm_r).bonus) ∧
    (((add_bonus_fire_warmth s fire_intensity is_sitting) bp_arm_l).bonus
        - (s bp_arm_l).bonus
      ≥ ((add_bonus_fire_warmth s fire_intensity is_sitting) bp_head).bonus
        - (s bp_head).bonus) ∧
    (((add_bonus_fire_warmth s fire_intensity is_sitting) bp_arm_l).bonus
        - (s bp_arm_l).bonus
      ≥ ((add_bonus_fire_warmth s fire_intensity is_sitting) bp_torso).bonus
        - (s bp_torso).bonus) ∧
    (((add_bonus_fire_warmth s fire_intensity is_sitting) bp_arm_l).bonus
        - (s bp_arm_l).bonus
      ≥ ((add_bonus_fire_warmth s fire_intensity is_sitting) bp_mouth).bonus
        - (s bp_mouth).bonus) ∧
    (((add_bonus_fire_warmth s fire_intensity is_sitting) bp_arm_l).bonus
        - (s bp_arm_l).bonus
      ≥ ((add_bonus_fire_warmth s fire_intensity is_sitting) bp_leg_l).bonus
        - (s bp_leg_l).bonus) ∧
    (((add_bonus_fire_warmth s fire_intensity is_sitting) bp_arm_l).bonus
        - (s bp_arm_l).bonus
      ≥ ((add_bonus_fire_warmth s fire_intensity is_sitting) bp_leg_r).bonus
        - (s bp_leg_r).bonus) ∧
    (((add_bonus_fire_warmth s fire_intensity true) bp_foot_l).bonus
        - (s bp_foot_l).bonus
      ≥ ((add_bonus_fire_warmth s fire_intensity false) bp_foot_l).bonus
        - (s bp_foot_l).bonus) ∧
    (((add_bonus_fire_warmth s fire_intensity true) bp_foot_r).bonus
        - (s bp_foot_r).bonus
      ≥ ((add_bonus_fire_warmth s fire_intensity false) bp_foot_r).bonus
        - (s bp_foot_r).bonus) := by
  have hcore : 0 ≤ 150 * (fire_intensity * (4 - fire_intensity)) := by
    have := mul_nonneg h0 (by omega : (0 : Int) ≤ 4 - fire_intensity)
    omega
  have hhl : ((add_bonus_fire_warmth s fire_intensity is_sitting)
      bp_hand_l).bonus = (s bp_hand_l).bonus + fire_intensity * 1500 := rfl
  have hhr : ((add_bonus_fire_warmth s fire_intensity is_sitting)
      bp_hand_r).bonus = (s bp_hand_r).bonus + fire_intensity * 1500 := rfl
  have hal : ((add_bonus_fire_warmth s fire_intensity is_sitting)
      bp_arm_l).bonus = (s bp_arm_l).bonus + fire_intensity * 600 := rfl
  have har : ((add_bonus_fire_warmth s fire_intensity is_sitting)
      bp_arm_r).bonus = (s bp_arm_r).bonus + fire_intensity * 600 := rfl
  have hhd : ((add_bonus_fire_warmth s fire_intensity is_sitting)
      bp_head).bonus
      = (s bp_head).bonus + fire_intensity * fire_intensity * 150 := rfl
  have hto : ((add_bonus_fire_warmth s fire_intensity is_sitting)
      bp_torso).bonus
      = (s bp_torso).bonus + fire_intensity * fire_intensity * 150 := rfl
  have hmo : ((add_bonus_fire_warmth s fire_intensity is_sitting)
      bp_mouth).bonus
      = (s bp_mouth).bonus + fire_intensity * fire_intensity * 150 := rfl
  have hll : ((add_bonus_fire_warmth s fire_intensity is_sitting)
      bp_leg_l).bonus
      = (s bp_leg_l).bonus + fire_intensity * fire_intensity * 150 := rfl
  have hlr : ((add_bonus_fire_warmth s fire_intensity is_sitting)
      bp_leg_r).bonus
      = (s bp_leg_r).bonus + fire_intensity * fire_intensity * 150 := rfl
  have hfl : ∀ b : Bool, ((add_bonus_fire_warmth s fire_intensity b)
      bp_foot_l).bonus = (s bp_foot_l).bonus + fire_intensity * 1500 :=
    fun b => rfl
  have hfr : ∀ b : Bool, ((add_bonus_fire_warmth s fire_intensity b)
      bp_foot_r).bonus = (s bp_foot_r).bonus + fire_intensity * 1500 :=
    fun b => rfl
  rw [hhl, hhr, hal, har, hhd, hto, hmo, hll, hlr, hfl, hfl, hfr, hfr]
  have harm : fire_intensity * 600 ≥ fire_intensity * fire_intensity * 150 := by
    nlinarith
  omega

/-- Witness for the amended C8 at a concrete input. -/
theorem fire_warmth_monotone_scaling_witness :
    (0 : Int) ≤ 2 ∧ (2 : Int) ≤ 4 ∧
    (((add_bonus_fire_warmth zeroState 2 true) bp_hand_l).bonus
        - (zeroState bp_hand_l).bonus
      ≥ ((add_bonus_fire_warmth zeroState 2 true) bp_arm_l).bonus
        - (zeroState bp_arm_l).bonus) :=
  ⟨by decide, by decide,
    (fire_warmth_monotone_scaling zeroState 2 true (by decide) (by decide)).1⟩
